import Mathlib

set_option maxHeartbeats 1000000

/-!
Verification development for the Eightgentic PRD-to-issues pipeline.

Text is modelled as `List Char` (`Str`), mirroring the JavaScript string
operations used by the source (`split('\n')`, `trim()`, `startsWith`,
anchored regular-expression tests) as executable Lean functions.
-/

abbrev Str := List Char

/-- Whitespace class of JavaScript: the set matched by the regex class
backslash-s and removed by `String.prototype.trim`. -/
def isJsWhitespace (c : Char) : Bool :=
  let v := c.toNat
  v == 9 || v == 10 || v == 11 || v == 12 || v == 13 || v == 32 ||
  v == 160 || v == 5760 || (decide (8192 ≤ v) && decide (v ≤ 8202)) ||
  v == 8232 || v == 8233 || v == 8239 || v == 8287 || v == 12288 || v == 65279

/-- Model of JavaScript `String.prototype.trim`. -/
def jsTrim (l : Str) : Str :=
  ((l.dropWhile isJsWhitespace).reverse.dropWhile isJsWhitespace).reverse

/-- Model of JavaScript `s.split('\n')`: always returns at least one piece,
and `"".split('\n')` is `[""]`. -/
def splitOnNl : Str → List Str
  | [] => [[]]
  | c :: cs =>
    if c = '\n' then [] :: splitOnNl cs
    else
      match splitOnNl cs with
      | [] => [[c]]
      | l :: ls => (c :: l) :: ls

/-- Join a list of lines with a newline separator (JavaScript `Array.join('\n')`). -/
def joinNl : List Str → Str
  | [] => []
  | [l] => l
  | l :: ls => l ++ '\n' :: joinNl ls

/-- Model of JavaScript `l.startsWith(p)` (first argument is the pattern). -/
def startsWithStr : Str → Str → Bool
  | [], _ => true
  | _ :: _, [] => false
  | p :: ps, c :: cs => p == c && startsWithStr ps cs

/-!
Anchored regular-expression matchers.  Each source pattern is anchored at
the start of the line and built from character classes, literals (with the
case-insensitive flag), fixed counts, star, plus and an optional group, so
each is compiled to a deterministic matcher returning the remaining input.
-/

abbrev Matcher := Str → Option Str

def mChar (c : Char) : Matcher := fun l =>
  match l with
  | x :: xs => if x = c then some xs else none
  | [] => none

def mClass (f : Char → Bool) : Matcher := fun l =>
  match l with
  | x :: xs => if f x then some xs else none
  | [] => none

def mStar (f : Char → Bool) : Matcher := fun l => some (l.dropWhile f)

def mPlus (f : Char → Bool) : Matcher := fun l =>
  match l with
  | x :: xs => if f x then some (xs.dropWhile f) else none
  | [] => none

def mOpt (p : Matcher) : Matcher := fun l =>
  match p l with
  | some r => some r
  | none => some l

def mCount (f : Char → Bool) : Nat → Matcher
  | 0, l => some l
  | n + 1, l =>
    match l with
    | x :: xs => if f x then mCount f n xs else none
    | [] => none

/-- ASCII lower-casing, the canonicalisation used by a case-insensitive
regular expression without the unicode flag on ASCII pattern characters. -/
def lowerAscii (c : Char) : Char :=
  if decide (65 ≤ c.toNat) && decide (c.toNat ≤ 90) then Char.ofNat (c.toNat + 32) else c

/-- Case-insensitive literal matcher. -/
def mLitCI : Str → Matcher
  | [], l => some l
  | t :: ts, l =>
    match l with
    | x :: xs => if lowerAscii x = lowerAscii t then mLitCI ts xs else none
    | [] => none

/-- Sequence a list of matchers. -/
def mSeq (ps : List Matcher) : Matcher := fun l => ps.foldlM (fun s p => p s) l

def isAsciiDigit (c : Char) : Bool := decide (48 ≤ c.toNat) && decide (c.toNat ≤ 57)

/-- Leading diff marker class of every trivial pattern: one of `+` or `-`. -/
def mDiffMark : Matcher := mClass (fun c => c == '+' || c == '-')

def mWs : Matcher := mStar isJsWhitespace

def mDigits : Matcher := mPlus isAsciiDigit

/-- Source pattern 1: version-number field lines. -/
def trivialVersionField : Matcher :=
  mSeq [mDiffMark, mWs, mLitCI "version:".data, mWs, mDigits, mChar '.', mDigits]

/-- Source pattern 2: ISO date field lines. -/
def trivialDateField : Matcher :=
  mSeq [mDiffMark, mWs, mLitCI "date:".data, mWs,
        mCount isAsciiDigit 4, mChar '-', mCount isAsciiDigit 2, mChar '-', mCount isAsciiDigit 2]

/-- Source pattern 3: update-date field lines. -/
def trivialUpdatedField : Matcher :=
  mSeq [mDiffMark, mWs, mLitCI "updated:".data, mWs,
        mCount isAsciiDigit 4, mChar '-', mCount isAsciiDigit 2, mChar '-', mCount isAsciiDigit 2]

/-- Source pattern 4: version references such as v1.2 or v1.2.3. -/
def trivialVersionRef : Matcher :=
  mSeq [mDiffMark, mWs, mLitCI "v".data, mDigits, mChar '.', mDigits,
        mOpt (mSeq [mChar '.', mDigits])]

/-- Source pattern 5: last-updated headers. -/
def trivialLastUpdated : Matcher :=
  mSeq [mDiffMark, mWs, mChar '*', mChar '*', mLitCI "last".data, mWs, mLitCI "updated".data]

/-- Source pattern 6: changelog section headers. -/
def trivialChangelog : Matcher :=
  mSeq [mDiffMark, mWs, mPlus (fun c => c == '#'), mWs, mLitCI "changelog".data]

/-- Source pattern 7: version-table rows. -/
def trivialVersionTable : Matcher :=
  mSeq [mDiffMark, mWs, mChar '|', mWs, mDigits, mChar '.', mDigits, mWs, mChar '|']

/-- A diff line is trivial when any of the seven source patterns matches it. -/
def isTrivialLine (l : Str) : Bool :=
  (trivialVersionField l).isSome || (trivialDateField l).isSome ||
  (trivialUpdatedField l).isSome || (trivialVersionRef l).isSome ||
  (trivialLastUpdated l).isSome || (trivialChangelog l).isSome ||
  (trivialVersionTable l).isSome

namespace SmartPRDProcessor

structure ChangeAnalysis where
  isSignificant : Bool
  filteredDiff : Str
  trivialChanges : List Str
  deriving Repr, DecidableEq

/-- Loop body of `analyzeChangeSignificance`: blank lines are skipped,
trivial lines are trimmed into the second component, all other lines are
kept (in order) in the first component. -/
def scanLines : List Str → List Str × List Str
  | [] => ([], [])
  | l :: ls =>
    let r := scanLines ls
    if (jsTrim l).isEmpty then r
    else if isTrivialLine l then (r.1, jsTrim l :: r.2)
    else (l :: r.1, r.2)

/-- Predicate deciding significance of a kept line: it must start with `+`
or `-` and its trimmed length must exceed 3 characters. -/
def isSignificantLine (l : Str) : Bool :=
  (startsWithStr ['+'] l || startsWithStr ['-'] l) && decide (3 < (jsTrim l).length)

/-- Embedding of `SmartPRDProcessor.analyzeChangeSignificance`. -/
def analyzeChangeSignificance (prdDiff : Str) : ChangeAnalysis :=
  let p := scanLines (splitOnNl prdDiff)
  { isSignificant := p.1.any isSignificantLine
    filteredDiff := joinNl p.1
    trivialChanges := p.2 }

end SmartPRDProcessor

namespace FileSystemIssueService

/-- Remainder of the diff loop once the old side is exhausted: every
remaining new line is emitted as an added line. -/
def addRest : List Str → Str
  | [] => []
  | n :: ns => '+' :: ' ' :: (n ++ '\n' :: addRest ns)

/-- Remainder of the diff loop once the new side is exhausted: every
remaining old line is emitted as a removed line. -/
def remRest : List Str → Str
  | [] => []
  | o :: os => '-' :: ' ' :: (o ++ '\n' :: remRest os)

/-- Loop body of `generateDiff`: two cursors over the old and new line
lists; remainders are emitted once either side runs out, equal lines are
emitted as context, unequal lines as a removed plus an added line. -/
def diffLines : List Str → List Str → Str
  | [], ns => addRest ns
  | o :: os, [] => '-' :: ' ' :: (o ++ '\n' :: remRest os)
  | o :: os, n :: ns =>
    if o = n then ' ' :: ' ' :: (o ++ '\n' :: diffLines os ns)
    else '-' :: ' ' :: (o ++ '\n' :: ('+' :: ' ' :: (n ++ '\n' :: diffLines os ns)))

/-- Embedding of `FileSystemIssueService.generateDiff`. -/
def generateDiff (oldContent newContent : Str) : Str :=
  diffLines (splitOnNl oldContent) (splitOnNl newContent)

end FileSystemIssueService

/-!
Work-item store data model, following the file-system backend
(`FileSystemIssueService`): issues with title, body, state, labels,
comments and an optional stored PRD version, plus a PRD-version archive
and a monotone issue-number counter.  File-system writes become updates of
an explicit `Store` state; wall-clock timestamps become a logical clock.
-/

structure CommentRec where
  author : Str
  body : Str
  createdAt : Nat
  deriving Repr, DecidableEq

structure PRDVersionRec where
  content : Str
  filePath : Str
  storedAt : Nat
  deriving Repr, DecidableEq

structure StoredIssue where
  number : Nat
  title : Str
  body : Str
  state : Str
  labels : List Str
  createdAt : Nat
  updatedAt : Nat
  comments : List CommentRec
  prdVersion : Option PRDVersionRec
  deriving Repr, DecidableEq

structure Store where
  issues : List StoredIssue
  lastIssueNumber : Nat
  versions : List (Nat × Str)
  clock : Nat
  deriving Repr, DecidableEq

structure IssueData where
  title : Str
  body : Str
  labels : List Str
  deriving Repr, DecidableEq

structure IssueUpdate where
  title : Option Str
  body : Option Str
  state : Option Str
  labels : Option (List Str)
  deriving Repr, DecidableEq

structure IssueFilters where
  state : Option Str
  labels : Option (List Str)
  since : Option Nat
  deriving Repr, DecidableEq

inductive StoreErr where
  | issueNotFound (issueNumber : Nat)
  deriving Repr, DecidableEq

instance exceptDecEq {ε α : Type} [DecidableEq ε] [DecidableEq α] :
    DecidableEq (Except ε α) := fun a b =>
  match a, b with
  | Except.error x, Except.error y =>
    if h : x = y then isTrue (by rw [h]) else isFalse (fun e => h (by injection e))
  | Except.error _, Except.ok _ => isFalse (fun e => Except.noConfusion e)
  | Except.ok _, Except.error _ => isFalse (fun e => Except.noConfusion e)
  | Except.ok x, Except.ok y =>
    if h : x = y then isTrue (by rw [h]) else isFalse (fun e => h (by injection e))

namespace FileSystemIssueService

def findIssue (s : Store) (n : Nat) : Option StoredIssue :=
  s.issues.find? (fun i => i.number == n)

/-- Advance the logical clock after a write. -/
def tick (s : Store) : Store := { s with clock := s.clock + 1 }

/-- Rewrite the stored record of issue `n` in place. -/
def setIssue (s : Store) (n : Nat) (f : StoredIssue → StoredIssue) : Store :=
  { s with issues := s.issues.map (fun i => if i.number = n then f i else i) }

/-- Embedding of `createIssue`: bump the counter, store an open issue with
the given data and the initial system comment. -/
def createIssue (s : Store) (d : IssueData) : Store × Nat :=
  let n := s.lastIssueNumber + 1
  let issue : StoredIssue :=
    { number := n
      title := d.title
      body := d.body
      state := ("open".data)
      labels := d.labels
      createdAt := s.clock
      updatedAt := s.clock
      comments := [{ author := ("system".data), body := ("Issue created from PRD".data), createdAt := s.clock }]
      prdVersion := none }
  ({ s with issues := s.issues ++ [issue], lastIssueNumber := n, clock := s.clock + 1 }, n)

/-- Partial patch applied by `updateIssue`: only present fields change. -/
def applyUpdate (u : IssueUpdate) (clock : Nat) (i : StoredIssue) : StoredIssue :=
  { i with
    title := u.title.getD i.title
    body := u.body.getD i.body
    state := u.state.getD i.state
    labels := u.labels.getD i.labels
    updatedAt := clock }

/-- Embedding of `updateIssue`: raises when the issue id is unknown. -/
def updateIssue (s : Store) (n : Nat) (u : IssueUpdate) : Except StoreErr Store :=
  match findIssue s n with
  | none => Except.error (StoreErr.issueNotFound n)
  | some _ => Except.ok (tick (setIssue s n (applyUpdate u s.clock)))

/-- Embedding of `getIssue`: absent result for an unknown id. -/
def getIssue (s : Store) (n : Nat) : Option StoredIssue :=
  findIssue s n

/-- Per-issue mutation performed by `addComment`: append a system comment
and refresh the update time. -/
def appendCommentFn (text : Str) (clock : Nat) : StoredIssue → StoredIssue := fun i =>
  { i with
    comments := i.comments ++ [{ author := ("system".data), body := text, createdAt := clock }]
    updatedAt := clock }

/-- Embedding of `addComment`: raises when the issue id is unknown,
otherwise appends a system comment and refreshes the update time. -/
def addComment (s : Store) (n : Nat) (text : Str) : Except StoreErr Store :=
  match findIssue s n with
  | none => Except.error (StoreErr.issueNotFound n)
  | some _ => Except.ok (tick (setIssue s n (appendCommentFn text s.clock)))

/-- Stable insertion of an issue into a list sorted by descending number:
the issue is placed after every already-present issue whose number is at
least as large (models the stable JavaScript comparator sort). -/
def insertDesc (a : StoredIssue) : List StoredIssue → List StoredIssue
  | [] => [a]
  | b :: bs => if b.number < a.number then a :: b :: bs else b :: insertDesc a bs

/-- Stable sort by descending issue number. -/
def sortByNumberDesc (l : List StoredIssue) : List StoredIssue :=
  l.foldl (fun acc x => insertDesc x acc) []

/-- Embedding of `getIssues`: filter by state, by required labels and by
update time, then sort by descending issue number. -/
def getIssues (s : Store) (f : IssueFilters) : List StoredIssue :=
  let kept := s.issues.filter (fun i =>
    (match f.state with
     | none => true
     | some st => if st == ("all".data) then true else i.state == st) &&
    (match f.labels with
     | none => true
     | some ls => if ls.isEmpty then true else ls.all (fun l => i.labels.contains l)) &&
    (match f.since with
     | none => true
     | some t => decide (t ≤ i.updatedAt)))
  sortByNumberDesc kept

/-- Per-issue mutation performed by `storePRDVersion`: record the
snapshot reference. -/
def setSnapshotFn (content path : Str) (clock : Nat) : StoredIssue → StoredIssue := fun i =>
  { i with prdVersion := some { content := content, filePath := path, storedAt := clock } }

/-- Embedding of `storePRDVersion`: archive the content, and when the
issue exists record the snapshot reference on it. -/
def storePRDVersion (s : Store) (n : Nat) (content path : Str) : Store :=
  let s1 := { s with versions := s.versions ++ [(n, content)] }
  let s2 :=
    match findIssue s1 n with
    | none => s1
    | some _ => setIssue s1 n (setSnapshotFn content path s.clock)
  tick s2

/-- Embedding of `getPRDVersion`. -/
def getPRDVersion (s : Store) (n : Nat) : Option Str :=
  match findIssue s n with
  | none => none
  | some i =>
    match i.prdVersion with
    | none => none
    | some v => some v.content

/-- Fixed sentinel returned by `getPRDDiff` when the stored and current
contents have equal hashes. -/
def noChangesSentinel : Str :=
  ("No changes detected between stored and current PRD versions".data)

/-- Embedding of `getPRDDiff`.  The content hash is abstracted as a
parameter standing for the sha256-based digest of the source. -/
def getPRDDiff (hash : Str → Str) (s : Store) (n : Nat) (current : Str) : Str :=
  match getPRDVersion s n with
  | none => ("No stored PRD version found for issue #".data) ++ (Nat.repr n).data
  | some stored =>
    if hash stored == hash current then noChangesSentinel
    else generateDiff stored current

end FileSystemIssueService

/-!
Planning data model of `SmartPRDProcessor`: change assessment, per-issue
update plans, new-feature records and the unified plan produced by the
planning stage.
-/

inductive PlanAction where
  | update
  | obsolete
  | noChange
  deriving Repr, DecidableEq

inductive ChangeSignificance where
  | minor
  | major
  | scopeChange
  deriving Repr, DecidableEq

structure UpdatePayload where
  title : Option Str
  body : Option Str
  labels : Option (List Str)
  deriving Repr, DecidableEq

/-- Number of present keys of the payload object (`Object.keys(...).length`). -/
def UpdatePayload.keysCount (u : UpdatePayload) : Nat :=
  (if u.title.isSome then 1 else 0) + (if u.body.isSome then 1 else 0) +
  (if u.labels.isSome then 1 else 0)

/-- The plan payload carries no state field; lift it to a service-level patch. -/
def UpdatePayload.toIssueUpdate (u : UpdatePayload) : IssueUpdate :=
  { title := u.title, body := u.body, state := none, labels := u.labels }

structure IssueUpdatePlan where
  issueNumber : Nat
  action : PlanAction
  changeSignificance : ChangeSignificance
  reasoning : Str
  updates : Option UpdatePayload
  comment : Option Str
  updateSummary : Option Str
  deriving Repr, DecidableEq

structure ChangeAssessment where
  hasSignificantChanges : Bool
  changeSummary : Str
  trivialChangesIgnored : List Str
  reasoningForSignificance : Str
  deriving Repr, DecidableEq

inductive FeatureType where
  | technical
  | nonTechnical
  | enabler
  deriving Repr, DecidableEq

def FeatureType.toStr : FeatureType → Str
  | .technical => ("technical".data)
  | .nonTechnical => ("non-technical".data)
  | .enabler => ("enabler".data)

/-- Upper-cased type string used in created issue titles. -/
def FeatureType.toUpperStr : FeatureType → Str
  | .technical => ("TECHNICAL".data)
  | .nonTechnical => ("NON-TECHNICAL".data)
  | .enabler => ("ENABLER".data)

inductive FeaturePriority where
  | high
  | medium
  | low
  deriving Repr, DecidableEq

def FeaturePriority.toStr : FeaturePriority → Str
  | .high => ("high".data)
  | .medium => ("medium".data)
  | .low => ("low".data)

structure AnalyzedFeature where
  title : Str
  description : Str
  ftype : FeatureType
  priority : FeaturePriority
  estimatedEffort : Str
  acceptanceCriteria : List Str
  dependencies : List Str
  blockedFeatures : List Str
  tags : List Str
  reasoning : Option Str
  reason : Option Str
  deriving Repr, DecidableEq

structure PlanSummary where
  totalIssuesAnalyzed : Nat
  issuesRequiringUpdates : Nat
  issuesMarkedObsolete : Nat
  newIssuesNeeded : Nat
  overallRationale : Str
  deriving Repr, DecidableEq

structure UnifiedPlanResult where
  changeAssessment : ChangeAssessment
  issueUpdates : List IssueUpdatePlan
  newFeatures : List AnalyzedFeature
  summary : PlanSummary
  deriving Repr, DecidableEq

namespace SmartPRDProcessor

open FileSystemIssueService

/-- Oracle abstraction for the single consolidated text-analysis call of
the unified planning stage: it receives the current document content, the
filtered diff, the filtered-out trivial changes and the existing issues. -/
abbrev PlanOracle := Str → Str → List Str → List StoredIssue → UnifiedPlanResult

/-- Truthiness of an optional string (`if (x)` in the source: absent or
empty both count as false). -/
def truthyOptStr : Option Str → Bool
  | none => false
  | some s => !s.isEmpty

/-- Reason enhancement applied to oracle-returned features:
`reason := feature.reasoning || 'New feature identified from PRD updates'`. -/
def enhanceFeature (f : AnalyzedFeature) : AnalyzedFeature :=
  { f with
    reason := some (match f.reasoning with
      | some r => if r.isEmpty then ("New feature identified from PRD updates".data) else r
      | none => ("New feature identified from PRD updates".data)) }

/-- Plan returned on the short-circuit path when no significant changes
were detected, with all its literal field values from the source. -/
def shortCircuitPlan (trivial : List Str) (existingIssues : List StoredIssue) : UnifiedPlanResult :=
  { changeAssessment :=
      { hasSignificantChanges := false
        changeSummary := ("Only trivial changes detected (version numbers, dates, formatting)".data)
        trivialChangesIgnored := trivial
        reasoningForSignificance := ("Changes are limited to non-functional updates that do not affect issue content".data) }
    issueUpdates := existingIssues.map (fun issue =>
      { issueNumber := issue.number
        action := PlanAction.noChange
        changeSignificance := ChangeSignificance.minor
        reasoning := ("No significant changes affect this issue".data)
        updates := none
        comment := none
        updateSummary := none })
    newFeatures := []
    summary :=
      { totalIssuesAnalyzed := existingIssues.length
        issuesRequiringUpdates := 0
        issuesMarkedObsolete := 0
        newIssuesNeeded := 0
        overallRationale := ("No action required - only trivial changes detected".data) } }

/-- Embedding of `planComprehensiveChanges`.  The second component counts
the calls made to the external text-analysis oracle. -/
def planComprehensiveChanges (oracle : PlanOracle) (prdContent prdDiff : Str)
    (existingIssues : List StoredIssue) : UnifiedPlanResult × Nat :=
  let changeAnalysis := analyzeChangeSignificance prdDiff
  if changeAnalysis.isSignificant then
    let result := oracle prdContent changeAnalysis.filteredDiff changeAnalysis.trivialChanges existingIssues
    ({ result with newFeatures := result.newFeatures.map enhanceFeature }, 1)
  else
    (shortCircuitPlan changeAnalysis.trivialChanges existingIssues, 0)

structure ExecCounts where
  updated : Nat
  created : Nat
  unchanged : Nat
  deriving Repr, DecidableEq

/-- Warning text prepended to the rationale when an issue is marked obsolete. -/
def obsoleteWarning : Str :=
  ("⚠️ This issue may be obsolete due to PRD changes: ".data)

/-- Execution of one update-plan entry against the store, returning the
new store and the contribution of the entry to the returned counts.
On the update action: apply the field payload only when it is present and
non-empty (counting the entry as updated exactly then), post the comment
when present and non-empty, and always persist the current PRD content as
a snapshot.  On the obsolete action: only append the warning comment and
count the entry as updated.  On no-change: no side effects. -/
def execUpdatePlan (s : Store) (e : IssueUpdatePlan) (prdContent prdFilePath : Str) :
    Except StoreErr (Store × ExecCounts) :=
  match e.action with
  | PlanAction.update =>
    match
      (match e.updates with
       | some u =>
         if u.keysCount > 0 then
           (updateIssue s e.issueNumber u.toIssueUpdate).map (fun s' => (s', 1))
         else Except.ok (s, 0)
       | none => Except.ok (s, 0)) with
    | Except.error err => Except.error err
    | Except.ok (s1, upd) =>
      match
        (match e.comment with
         | some c => if c.isEmpty then Except.ok s1 else addComment s1 e.issueNumber c
         | none => Except.ok s1) with
      | Except.error err => Except.error err
      | Except.ok s2 =>
        Except.ok (storePRDVersion s2 e.issueNumber prdContent prdFilePath,
          { updated := upd, created := 0, unchanged := 0 })
  | PlanAction.obsolete =>
    (addComment s e.issueNumber (obsoleteWarning ++ e.reasoning)).map
      (fun s' => (s', { updated := 1, created := 0, unchanged := 0 }))
  | PlanAction.noChange =>
    Except.ok (s, { updated := 0, created := 0, unchanged := 1 })

/-- Loop over the plan entries.  A raised error propagates immediately:
the store keeps the side effects applied so far and no counts are
produced. -/
def execUpdatePlans (prdContent prdFilePath : Str) :
    Store → List IssueUpdatePlan → (Except StoreErr ExecCounts) × Store
  | s, [] => (Except.ok { updated := 0, created := 0, unchanged := 0 }, s)
  | s, e :: rest =>
    match execUpdatePlan s e prdContent prdFilePath with
    | Except.error err => (Except.error err, s)
    | Except.ok (s', d) =>
      match execUpdatePlans prdContent prdFilePath s' rest with
      | (Except.error err, s'') => (Except.error err, s'')
      | (Except.ok c, s'') =>
        (Except.ok { updated := d.updated + c.updated, created := d.created + c.created,
                     unchanged := d.unchanged + c.unchanged }, s'')

/-- Deterministic label set of a created issue. -/
def featureLabels (f : AnalyzedFeature) : List Str :=
  ("prd-generated".data) :: (("type:".data) ++ f.ftype.toStr) ::
    (("priority:".data) ++ f.priority.toStr) :: f.tags

/-- Issue data built for one new feature.  Template rendering is data
driven (category template files); it is abstracted as the `render`
argument producing the issue body from the feature and document path. -/
def featureIssueData (render : AnalyzedFeature → Str → Str) (f : AnalyzedFeature)
    (prdPath : Str) : IssueData :=
  { title := ('[' :: f.ftype.toUpperStr) ++ ("] ".data) ++ f.title
    body := render f prdPath
    labels := featureLabels f }

/-- Embedding of `createNewIssues`: create one issue per feature and, when
PRD content was supplied (and is non-empty), store it as the issue's first
snapshot. -/
def createNewIssues (render : AnalyzedFeature → Str → Str) (s : Store)
    (features : List AnalyzedFeature) (prdPath : Str) (prdContent : Option Str) : Store :=
  features.foldl (fun st f =>
    let p := createIssue st (featureIssueData render f prdPath)
    match prdContent with
    | some c => if c.isEmpty then p.1 else storePRDVersion p.1 p.2 c prdPath
    | none => p.1) s

/-- Embedding of `executeChanges`: run all update-plan entries, then
create the planned new issues; the created count is the number of planned
new features. -/
def executeChanges (render : AnalyzedFeature → Str → Str) (s : Store)
    (plan : UnifiedPlanResult) (prdContent prdFilePath : Str) :
    (Except StoreErr ExecCounts) × Store :=
  match execUpdatePlans prdContent prdFilePath s plan.issueUpdates with
  | (Except.error err, s') => (Except.error err, s')
  | (Except.ok c, s') =>
    if plan.newFeatures.length > 0 then
      (Except.ok { c with created := plan.newFeatures.length },
       createNewIssues render s' plan.newFeatures prdFilePath (some prdContent))
    else (Except.ok c, s')

/-- Oracle abstraction for the whole-document feature-extraction call used
on the fresh-create path. -/
abbrev ExtractOracle := Str → List AnalyzedFeature

/-- Embedding of `createAllNewIssues`. -/
def createAllNewIssues (extract : ExtractOracle) (render : AnalyzedFeature → Str → Str)
    (s : Store) (prdContent prdFilePath : Str) : Store :=
  createNewIssues render s (extract prdContent) prdFilePath (some prdContent)

/-- Filter used by `processPRD` to discover existing document-generated items. -/
def prdGeneratedFilter : IssueFilters :=
  { state := some ("open".data), labels := some [("prd-generated".data)], since := none }

/-- Processor-level `getPRDDiff`: use the first existing issue as the
reference point, falling back to the fixed no-stored-version message. -/
def processorPRDDiff (hash : Str → Str) (s : Store) (prdContent : Str)
    (existingIssues : List StoredIssue) : Str :=
  match existingIssues with
  | [] => ("No stored PRD version available for comparison".data)
  | first :: _ => FileSystemIssueService.getPRDDiff hash s first.number prdContent

inductive ProcessOutcome where
  | freshCreate
  | noSignificantChanges
  | completed (counts : ExecCounts)
  deriving Repr, DecidableEq

/-- Embedding of `processPRD`: discover existing open prd-generated
issues; on force-create or an empty result take the fresh-create path;
otherwise diff against the stored snapshot, run unified planning, exit
early when the assessment is not significant, and otherwise execute the
plan. -/
def processPRD (extract : ExtractOracle) (planOracle : PlanOracle)
    (render : AnalyzedFeature → Str → Str) (hash : Str → Str)
    (s : Store) (prdContent prdFilePath : Str) (forceCreate : Bool) :
    (Except StoreErr ProcessOutcome) × Store :=
  let existingIssues := getIssues s prdGeneratedFilter
  if forceCreate || existingIssues.isEmpty then
    (Except.ok ProcessOutcome.freshCreate,
     createAllNewIssues extract render s prdContent prdFilePath)
  else
    let prdDiff := processorPRDDiff hash s prdContent existingIssues
    let planResult := (planComprehensiveChanges planOracle prdContent prdDiff existingIssues).1
    if !planResult.changeAssessment.hasSignificantChanges then
      (Except.ok ProcessOutcome.noSignificantChanges, s)
    else
      match executeChanges render s planResult prdContent prdFilePath with
      | (Except.error err, s') => (Except.error err, s')
      | (Except.ok c, s') => (Except.ok (ProcessOutcome.completed c), s')

end SmartPRDProcessor

/-!
Remote-ticket-API backend (`GitHubIssueService`).  The hosted tracker's
endpoints are modelled as primitives over a remote repository state; per
the store contract they answer status 404 for an unknown issue id.  The
service code adds no error handling on mutations and translates a 404 on
lookup into an absent result.
-/

structure ApiError where
  status : Nat
  deriving Repr, DecidableEq

structure RemoteIssue where
  number : Nat
  title : Str
  body : Str
  state : Str
  labels : List Str
  comments : List CommentRec
  deriving Repr, DecidableEq

structure RemoteRepo where
  issues : List RemoteIssue
  deriving Repr, DecidableEq

namespace GitHubIssueService

def apiFindIssue (r : RemoteRepo) (n : Nat) : Option RemoteIssue :=
  r.issues.find? (fun i => i.number == n)

/-- Remote endpoint `issues.get`: the issue, or a 404 error when the id is
unknown. -/
def apiGetIssue (r : RemoteRepo) (n : Nat) : Except ApiError RemoteIssue :=
  match apiFindIssue r n with
  | some i => Except.ok i
  | none => Except.error { status := 404 }

/-- Remote endpoint `issues.listComments`: the comments, or a 404 error
when the id is unknown. -/
def apiListComments (r : RemoteRepo) (n : Nat) : Except ApiError (List CommentRec) :=
  match apiFindIssue r n with
  | some i => Except.ok i.comments
  | none => Except.error { status := 404 }

/-- Remote endpoint `issues.update`: partial patch, or a 404 error when
the id is unknown. -/
def apiUpdateIssue (r : RemoteRepo) (n : Nat) (u : IssueUpdate) : Except ApiError RemoteRepo :=
  match apiFindIssue r n with
  | none => Except.error { status := 404 }
  | some _ =>
    Except.ok { r with issues := r.issues.map (fun i =>
      if i.number == n then
        { i with
          title := u.title.getD i.title
          body := u.body.getD i.body
          state := u.state.getD i.state
          labels := u.labels.getD i.labels }
      else i) }

/-- Remote endpoint `issues.createComment`: append a comment, or a 404
error when the id is unknown. -/
def apiCreateComment (r : RemoteRepo) (n : Nat) (text : Str) : Except ApiError RemoteRepo :=
  match apiFindIssue r n with
  | none => Except.error { status := 404 }
  | some _ =>
    Except.ok { r with issues := r.issues.map (fun i =>
      if i.number == n then
        { i with comments := i.comments ++ [{ author := ("user".data), body := text, createdAt := 0 }] }
      else i) }

/-- Embedding of the remote backend's `getIssue`: fetch the issue and its
comments, translating a 404 into an absent result; other errors
propagate. -/
def getIssue (r : RemoteRepo) (n : Nat) : Except ApiError (Option (RemoteIssue × List CommentRec)) :=
  match (do
      let i ← apiGetIssue r n
      let cs ← apiListComments r n
      pure (i, cs) : Except ApiError (RemoteIssue × List CommentRec)) with
  | Except.ok v => Except.ok (some v)
  | Except.error e => if e.status == 404 then Except.ok none else Except.error e

/-- Embedding of the remote backend's `updateIssue`: the endpoint call is
not wrapped, so an unknown id raises. -/
def updateIssue (r : RemoteRepo) (n : Nat) (u : IssueUpdate) : Except ApiError RemoteRepo :=
  apiUpdateIssue r n u

/-- Embedding of the remote backend's `addComment`: the endpoint call is
not wrapped, so an unknown id raises. -/
def addComment (r : RemoteRepo) (n : Nat) (text : Str) : Except ApiError RemoteRepo :=
  apiCreateComment r n text

end GitHubIssueService

/-!
Diff line classification used to state the edge-case properties of
`generateDiff`.
-/

/-- Lines of a diff text tagged as added. -/
def addedLines (d : Str) : List Str :=
  (splitOnNl d).filter (fun l => startsWithStr ['+'] l)

/-- Lines of a diff text tagged as removed. -/
def removedLines (d : Str) : List Str :=
  (splitOnNl d).filter (fun l => startsWithStr ['-'] l)

/-!
Concrete fixtures used by witness and counterexample theorems.
-/

def emptyAssessment : ChangeAssessment :=
  { hasSignificantChanges := false, changeSummary := [], trivialChangesIgnored := [],
    reasoningForSignificance := [] }

def emptyPlanSummary : PlanSummary :=
  { totalIssuesAnalyzed := 0, issuesRequiringUpdates := 0, issuesMarkedObsolete := 0,
    newIssuesNeeded := 0, overallRationale := [] }

def emptyPlanResult : UnifiedPlanResult :=
  { changeAssessment := emptyAssessment, issueUpdates := [], newFeatures := [],
    summary := emptyPlanSummary }

def constPlanOracle : SmartPRDProcessor.PlanOracle := fun _ _ _ _ => emptyPlanResult

def sampleIssue (n : Nat) : StoredIssue :=
  { number := n, title := ("T".data), body := ("B".data), state := ("open".data),
    labels := [("prd-generated".data)], createdAt := 0, updatedAt := 0,
    comments := [], prdVersion := none }

def emptyStore : Store :=
  { issues := [], lastIssueNumber := 0, versions := [], clock := 0 }

def c2Store : Store :=
  { issues := [sampleIssue 2], lastIssueNumber := 2, versions := [], clock := 0 }

def c2FailEntry : IssueUpdatePlan :=
  { issueNumber := 1, action := PlanAction.update, changeSignificance := ChangeSignificance.minor,
    reasoning := [], updates := some { title := some ("X".data), body := none, labels := none },
    comment := none, updateSummary := none }

def c2NextEntry : IssueUpdatePlan :=
  { issueNumber := 2, action := PlanAction.obsolete, changeSignificance := ChangeSignificance.minor,
    reasoning := ("r".data), updates := none, comment := none, updateSummary := none }

def c2Plan : UnifiedPlanResult :=
  { changeAssessment := emptyAssessment, issueUpdates := [c2FailEntry, c2NextEntry],
    newFeatures := [], summary := emptyPlanSummary }

def c4Feature : AnalyzedFeature :=
  { title := ("F".data), description := [], ftype := FeatureType.technical,
    priority := FeaturePriority.high, estimatedEffort := [], acceptanceCriteria := [],
    dependencies := [], blockedFeatures := [], tags := [], reasoning := none, reason := none }

def c5Entry : IssueUpdatePlan :=
  { issueNumber := 2, action := PlanAction.obsolete, changeSignificance := ChangeSignificance.major,
    reasoning := ("scope removed".data), updates := none, comment := none, updateSummary := none }

def c9Entry : IssueUpdatePlan :=
  { issueNumber := 2, action := PlanAction.update, changeSignificance := ChangeSignificance.minor,
    reasoning := [], updates := some { title := none, body := none, labels := none },
    comment := some ("clarified".data), updateSummary := none }

def emptyRepo : RemoteRepo := { issues := [] }

def c10Store : Store :=
  { issues := [{ sampleIssue 1 with prdVersion := some { content := ("abc".data), filePath := ("p".data), storedAt := 0 } }],
    lastIssueNumber := 1, versions := [(1, ("abc".data))], clock := 1 }

/-!
Supporting lemmas about line splitting and the diff loop.
-/

theorem splitOnNl_ne_nil (s : Str) : splitOnNl s ≠ [] := by
  induction s with
  | nil => simp [splitOnNl]
  | cons c cs ih =>
    simp only [splitOnNl]
    by_cases h : c = '\n'
    · simp [h]
    · simp only [if_neg h]
      cases hs : splitOnNl cs with
      | nil => simp
      | cons l ls => simp

theorem nl_not_mem_splitOnNl (s : Str) : ∀ l ∈ splitOnNl s, '\n' ∉ l := by
  induction s with
  | nil =>
    intro l hl
    simp [splitOnNl] at hl
    subst hl
    simp
  | cons c cs ih =>
    intro l hl
    simp only [splitOnNl] at hl
    by_cases h : c = '\n'
    · rw [if_pos h] at hl
      rcases List.mem_cons.mp hl with h1 | h1
      · subst h1; simp
      · exact ih l h1
    · rw [if_neg h] at hl
      cases hs : splitOnNl cs with
      | nil => exact absurd hs (splitOnNl_ne_nil cs)
      | cons m ms =>
        rw [hs] at hl
        rcases List.mem_cons.mp hl with h1 | h1
        · subst h1
          intro hmem
          rcases List.mem_cons.mp hmem with h2 | h2
          · exact h h2.symm
          · refine ih m ?_ h2
            rw [hs]
            exact List.mem_cons_self m ms
        · refine ih l ?_
          rw [hs]
          exact List.mem_cons_of_mem m h1

theorem splitOnNl_append_cons (xs rest : Str) (h : '\n' ∉ xs) :
    splitOnNl (xs ++ '\n' :: rest) = xs :: splitOnNl rest := by
  induction xs with
  | nil => simp [splitOnNl]
  | cons c cs ih =>
    have hc : c ≠ '\n' := fun e => h (by simp [e])
    have h' : '\n' ∉ cs := fun hm => h (List.mem_cons_of_mem c hm)
    simp only [List.cons_append, splitOnNl, List.append_eq, if_neg hc, ih h']

theorem splitOnNl_tagged_join (p : Str) (hp : '\n' ∉ p) (ls : List Str)
    (hl : ∀ l ∈ ls, '\n' ∉ l) :
    splitOnNl ((ls.map (fun l => p ++ (l ++ ['\n']))).flatten) =
      ls.map (fun l => p ++ l) ++ [[]] := by
  induction ls with
  | nil => simp [splitOnNl]
  | cons a as ih =>
    have ha : '\n' ∉ a := hl a (List.mem_cons_self a as)
    have has : ∀ l ∈ as, '\n' ∉ l := fun l hm => hl l (List.mem_cons_of_mem a hm)
    have hpa : '\n' ∉ p ++ a := by
      intro hm
      rcases List.mem_append.mp hm with h1 | h1
      · exact hp h1
      · exact ha h1
    simp only [List.map_cons, List.flatten_cons]
    have harr : (p ++ (a ++ ['\n'])) ++ (as.map (fun l => p ++ (l ++ ['\n']))).flatten
        = (p ++ a) ++ '\n' :: (as.map (fun l => p ++ (l ++ ['\n']))).flatten := by
      simp [List.append_assoc]
    rw [harr, splitOnNl_append_cons _ _ hpa, ih has]
    simp

theorem diffLines_self (ls : List Str) :
    FileSystemIssueService.diffLines ls ls =
      (ls.map (fun l => [' ', ' '] ++ (l ++ ['\n']))).flatten := by
  induction ls with
  | nil => rfl
  | cons a as ih =>
    simp only [FileSystemIssueService.diffLines, if_pos rfl, ih, List.map_cons,
      List.flatten_cons]
    simp [List.append_assoc]

theorem generateDiff_self_lines (t : Str) :
    splitOnNl (FileSystemIssueService.generateDiff t t) =
      (splitOnNl t).map (fun l => [' ', ' '] ++ l) ++ [[]] := by
  unfold FileSystemIssueService.generateDiff
  rw [diffLines_self]
  exact splitOnNl_tagged_join [' ', ' '] (by decide) _ (nl_not_mem_splitOnNl t)

theorem mem_scanLines_fst (ls : List Str) (l : Str)
    (h : l ∈ (SmartPRDProcessor.scanLines ls).1) : l ∈ ls := by
  induction ls with
  | nil => simp [SmartPRDProcessor.scanLines] at h
  | cons a as ih =>
    simp only [SmartPRDProcessor.scanLines] at h
    by_cases h1 : (jsTrim a).isEmpty = true
    · rw [if_pos h1] at h
      exact List.mem_cons_of_mem a (ih h)
    · rw [if_neg h1] at h
      by_cases h2 : isTrivialLine a = true
      · rw [if_pos h2] at h
        exact List.mem_cons_of_mem a (ih h)
      · rw [if_neg h2] at h
        rcases List.mem_cons.mp h with h3 | h3
        · rw [h3]; exact List.mem_cons_self a as
        · exact List.mem_cons_of_mem a (ih h3)

/-- A line that is empty or context-tagged is never significant. -/
theorem isSignificantLine_context (l : Str)
    (h : l = [] ∨ ∃ x, l = [' ', ' '] ++ x) :
    SmartPRDProcessor.isSignificantLine l = false := by
  rcases h with h | ⟨x, h⟩ <;> subst h <;>
    simp [SmartPRDProcessor.isSignificantLine, startsWithStr]

/-!
Claim theorems.
-/

/-- C6: for every text t, generateDiff applied to identical old and new
content produces only context-tagged lines (no added or removed lines),
and classification of that output is not significant. -/
theorem claim_C6_diff_self (t : Str) :
    (∀ l ∈ splitOnNl (FileSystemIssueService.generateDiff t t),
       (l = [] ∨ startsWithStr [' ', ' '] l = true) ∧
       startsWithStr ['+'] l = false ∧ startsWithStr ['-'] l = false) ∧
    (SmartPRDProcessor.analyzeChangeSignificance
        (FileSystemIssueService.generateDiff t t)).isSignificant = false := by
  have hshape : ∀ l ∈ splitOnNl (FileSystemIssueService.generateDiff t t),
      l = [] ∨ ∃ x, l = [' ', ' '] ++ x := by
    intro l hl
    rw [generateDiff_self_lines] at hl
    rcases List.mem_append.mp hl with h1 | h1
    · rcases List.mem_map.mp h1 with ⟨x, _, rfl⟩
      exact Or.inr ⟨x, rfl⟩
    · simp at h1
      exact Or.inl h1
  constructor
  · intro l hl
    rcases hshape l hl with h | ⟨x, h⟩ <;> subst h <;>
      simp [startsWithStr]
  · show ((SmartPRDProcessor.scanLines _).1.any SmartPRDProcessor.isSignificantLine) = false
    rw [List.any_eq_false]
    intro x hx
    have hxl := mem_scanLines_fst _ _ hx
    rw [isSignificantLine_context x (hshape x hxl)]
    simp

/-- Short-circuit equation of the planning stage: a non-significant diff
yields the fixed short-circuit plan and no oracle call. -/
theorem planComprehensiveChanges_not_significant (oracle : SmartPRDProcessor.PlanOracle)
    (prdContent prdDiff : Str) (existingIssues : List StoredIssue)
    (h : (SmartPRDProcessor.analyzeChangeSignificance prdDiff).isSignificant = false) :
    SmartPRDProcessor.planComprehensiveChanges oracle prdContent prdDiff existingIssues =
      (SmartPRDProcessor.shortCircuitPlan
        (SmartPRDProcessor.analyzeChangeSignificance prdDiff).trivialChanges existingIssues, 0) := by
  simp [SmartPRDProcessor.planComprehensiveChanges, h]

/-- C1: when the change-significance filter classifies the diff as not
significant, the planning stage returns a plan with a non-significant
assessment, one no-change entry per existing issue carrying the fixed
rationale, and no new features, and it performs zero oracle calls (the
result does not depend on the oracle at all). -/
theorem claim_C1_short_circuit (oracle : SmartPRDProcessor.PlanOracle)
    (prdContent prdDiff : Str) (existingIssues : List StoredIssue)
    (h : (SmartPRDProcessor.analyzeChangeSignificance prdDiff).isSignificant = false) :
    (SmartPRDProcessor.planComprehensiveChanges oracle prdContent prdDiff existingIssues).2 = 0 ∧
    (SmartPRDProcessor.planComprehensiveChanges oracle prdContent prdDiff
        existingIssues).1.changeAssessment.hasSignificantChanges = false ∧
    (SmartPRDProcessor.planComprehensiveChanges oracle prdContent prdDiff
        existingIssues).1.issueUpdates =
      existingIssues.map (fun issue =>
        { issueNumber := issue.number
          action := PlanAction.noChange
          changeSignificance := ChangeSignificance.minor
          reasoning := ("No significant changes affect this issue".data)
          updates := none
          comment := none
          updateSummary := none }) ∧
    (SmartPRDProcessor.planComprehensiveChanges oracle prdContent prdDiff
        existingIssues).1.newFeatures = [] ∧
    (∀ oracle2 : SmartPRDProcessor.PlanOracle,
      SmartPRDProcessor.planComprehensiveChanges oracle2 prdContent prdDiff existingIssues =
        SmartPRDProcessor.planComprehensiveChanges oracle prdContent prdDiff existingIssues) := by
  refine ⟨?_, ?_, ?_, ?_, ?_⟩
  · rw [planComprehensiveChanges_not_significant oracle prdContent prdDiff existingIssues h]
  · rw [planComprehensiveChanges_not_significant oracle prdContent prdDiff existingIssues h]
    rfl
  · rw [planComprehensiveChanges_not_significant oracle prdContent prdDiff existingIssues h]
    rfl
  · rw [planComprehensiveChanges_not_significant oracle prdContent prdDiff existingIssues h]
    rfl
  · intro oracle2
    rw [planComprehensiveChanges_not_significant oracle prdContent prdDiff existingIssues h,
        planComprehensiveChanges_not_significant oracle2 prdContent prdDiff existingIssues h]

/-- Witness for C1: a trivial-only diff (two version-number lines) on a
store with one existing issue short-circuits with zero oracle calls. -/
theorem claim_C1_witness :
    ((SmartPRDProcessor.analyzeChangeSignificance
        ("+ version: 1.1\n- version: 1.0".data)).isSignificant = false) ∧
    (SmartPRDProcessor.planComprehensiveChanges constPlanOracle ("doc".data)
        ("+ version: 1.1\n- version: 1.0".data) [sampleIssue 1]).2 = 0 ∧
    (SmartPRDProcessor.planComprehensiveChanges constPlanOracle ("doc".data)
        ("+ version: 1.1\n- version: 1.0".data) [sampleIssue 1]).1.newFeatures = [] :=
  ⟨by decide,
   (claim_C1_short_circuit constPlanOracle ("doc".data)
      ("+ version: 1.1\n- version: 1.0".data) [sampleIssue 1] (by decide)).1,
   (claim_C1_short_circuit constPlanOracle ("doc".data)
      ("+ version: 1.1\n- version: 1.0".data) [sampleIssue 1] (by decide)).2.2.2.1⟩

/-- C10: with equal hashes of the stored and current contents, getPRDDiff
returns the fixed sentinel text; the sentinel classifies as not
significant, so planning on it always short-circuits with zero oracle
calls. -/
theorem claim_C10_sentinel_short_circuit (hash : Str → Str) (s : Store) (n : Nat)
    (stored current : Str)
    (hs : FileSystemIssueService.getPRDVersion s n = some stored)
    (hh : hash stored = hash current) :
    FileSystemIssueService.getPRDDiff hash s n current =
      FileSystemIssueService.noChangesSentinel ∧
    (SmartPRDProcessor.analyzeChangeSignificance
        FileSystemIssueService.noChangesSentinel).isSignificant = false ∧
    (∀ (oracle : SmartPRDProcessor.PlanOracle) (prdContent : Str)
        (issues : List StoredIssue),
      (SmartPRDProcessor.planComprehensiveChanges oracle prdContent
          FileSystemIssueService.noChangesSentinel issues).2 = 0 ∧
      (SmartPRDProcessor.planComprehensiveChanges oracle prdContent
          FileSystemIssueService.noChangesSentinel issues).1.changeAssessment.hasSignificantChanges
        = false) := by
  have hsent : (SmartPRDProcessor.analyzeChangeSignificance
      FileSystemIssueService.noChangesSentinel).isSignificant = false := by decide
  refine ⟨?_, hsent, ?_⟩
  · unfold FileSystemIssueService.getPRDDiff
    rw [hs]
    simp [hh]
  · intro oracle prdContent issues
    constructor
    · rw [planComprehensiveChanges_not_significant oracle prdContent _ issues hsent]
    · rw [planComprehensiveChanges_not_significant oracle prdContent _ issues hsent]
      rfl

/-- Witness for C10: a concrete store whose issue 1 holds a snapshot equal
in hash (under the identity digest) to the current content. -/
theorem claim_C10_witness :
    FileSystemIssueService.getPRDDiff (fun c => c) c10Store 1 ("abc".data) =
      FileSystemIssueService.noChangesSentinel ∧
    (SmartPRDProcessor.analyzeChangeSignificance
        FileSystemIssueService.noChangesSentinel).isSignificant = false :=
  ⟨(claim_C10_sentinel_short_circuit (fun c => c) c10Store 1 ("abc".data) ("abc".data)
      (by decide) rfl).1,
   (claim_C10_sentinel_short_circuit (fun c => c) c10Store 1 ("abc".data) ("abc".data)
      (by decide) rfl).2.1⟩

theorem scanLines_eq (ls : List Str) :
    SmartPRDProcessor.scanLines ls =
      (ls.filter (fun l => !(jsTrim l).isEmpty && !(isTrivialLine l)),
       (ls.filter (fun l => !(jsTrim l).isEmpty && isTrivialLine l)).map jsTrim) := by
  induction ls with
  | nil => rfl
  | cons a as ih =>
    cases h1 : (jsTrim a).isEmpty
    · cases h2 : isTrivialLine a
      · simp [SmartPRDProcessor.scanLines, List.filter_cons, h1, h2, ih]
      · simp [SmartPRDProcessor.scanLines, List.filter_cons, h1, h2, ih]
    · simp [SmartPRDProcessor.scanLines, List.filter_cons, h1, ih]

theorem jsTrim_cons_ne_nil (c : Char) (l : Str) (hc : isJsWhitespace c = false) :
    jsTrim (c :: l) ≠ [] := by
  unfold jsTrim
  rw [List.dropWhile_cons]
  simp only [hc, Bool.false_eq_true, if_false]
  intro hnil
  have h2 : (c :: l).reverse.dropWhile isJsWhitespace = [] := by
    have h3 := congrArg List.reverse hnil
    simpa using h3
  have h4 : ∀ x ∈ (c :: l).reverse, isJsWhitespace x = true :=
    List.dropWhile_eq_nil_iff.mp h2
  have h5 := h4 c (by simp)
  rw [hc] at h5
  exact Bool.false_ne_true h5

theorem startsWith_single_iff (c : Char) (l : Str) :
    startsWithStr [c] l = true ↔ ∃ xs, l = c :: xs := by
  cases l with
  | nil => simp [startsWithStr]
  | cons a as =>
    simp only [startsWithStr, Bool.and_eq_true, beq_iff_eq, List.cons.injEq]
    constructor
    · rintro ⟨h, -⟩
      exact ⟨as, h.symm, rfl⟩
    · rintro ⟨xs, h1, h2⟩
      exact ⟨h1.symm, trivial⟩

/-- The head of an added or removed line is not whitespace, so its trimmed
form is non-empty. -/
theorem jsTrim_ne_nil_of_mark (l : Str)
    (h : startsWithStr ['+'] l = true ∨ startsWithStr ['-'] l = true) :
    jsTrim l ≠ [] := by
  rcases h with h | h <;>
    obtain ⟨xs, rfl⟩ := (startsWith_single_iff _ l).mp h
  · exact jsTrim_cons_ne_nil '+' xs (by decide)
  · exact jsTrim_cons_ne_nil '-' xs (by decide)

/-- C3: the classifier drops blank lines, diverts non-blank trivial lines
(trimmed) into trivialChanges, passes every other line (including context
lines) into filteredDiff, and is significant exactly when some non-trivial
added or removed line with trimmed length above 3 exists. -/
theorem claim_C3_classification (d : Str) :
    (SmartPRDProcessor.analyzeChangeSignificance d).trivialChanges =
      ((splitOnNl d).filter (fun l => !(jsTrim l).isEmpty && isTrivialLine l)).map jsTrim ∧
    (SmartPRDProcessor.analyzeChangeSignificance d).filteredDiff =
      joinNl ((splitOnNl d).filter (fun l => !(jsTrim l).isEmpty && !(isTrivialLine l))) ∧
    ((SmartPRDProcessor.analyzeChangeSignificance d).isSignificant = true ↔
      ∃ l ∈ splitOnNl d, isTrivialLine l = false ∧
        (startsWithStr ['+'] l = true ∨ startsWithStr ['-'] l = true) ∧
        3 < (jsTrim l).length) := by
  have e1 : SmartPRDProcessor.analyzeChangeSignificance d =
      { isSignificant :=
          (SmartPRDProcessor.scanLines (splitOnNl d)).1.any SmartPRDProcessor.isSignificantLine
        filteredDiff := joinNl (SmartPRDProcessor.scanLines (splitOnNl d)).1
        trivialChanges := (SmartPRDProcessor.scanLines (splitOnNl d)).2 } := rfl
  refine ⟨?_, ?_, ?_⟩
  · rw [e1, scanLines_eq]
  · rw [e1, scanLines_eq]
  · rw [e1]
    show ((SmartPRDProcessor.scanLines (splitOnNl d)).1.any
        SmartPRDProcessor.isSignificantLine = true) ↔ _
    rw [scanLines_eq, List.any_eq_true]
    constructor
    · rintro ⟨x, hx, hsig⟩
      rw [List.mem_filter] at hx
      obtain ⟨hmem, hcond⟩ := hx
      simp only [Bool.and_eq_true, Bool.not_eq_true'] at hcond
      simp only [SmartPRDProcessor.isSignificantLine, Bool.and_eq_true,
        Bool.or_eq_true, decide_eq_true_eq] at hsig
      exact ⟨x, hmem, hcond.2, hsig.1, hsig.2⟩
    · rintro ⟨l, hmem, htriv, hsw, hlen⟩
      have hne : jsTrim l ≠ [] := jsTrim_ne_nil_of_mark l hsw
      refine ⟨l, ?_, ?_⟩
      · rw [List.mem_filter]
        refine ⟨hmem, ?_⟩
        simp only [Bool.and_eq_true, Bool.not_eq_true']
        constructor
        · cases hE : (jsTrim l).isEmpty
          · rfl
          · exact absurd (List.isEmpty_iff.mp hE) hne
        · exact htriv
      · simp only [SmartPRDProcessor.isSignificantLine, Bool.and_eq_true,
          Bool.or_eq_true, decide_eq_true_eq]
        exact ⟨hsw, hlen⟩

theorem addRest_eq (ls : List Str) :
    FileSystemIssueService.addRest ls =
      (ls.map (fun l => ['+', ' '] ++ (l ++ ['\n']))).flatten := by
  induction ls with
  | nil => rfl
  | cons a as ih =>
    simp only [FileSystemIssueService.addRest, ih, List.map_cons, List.flatten_cons]
    simp [List.append_assoc]

theorem remRest_eq (ls : List Str) :
    FileSystemIssueService.remRest ls =
      (ls.map (fun l => ['-', ' '] ++ (l ++ ['\n']))).flatten := by
  induction ls with
  | nil => rfl
  | cons a as ih =>
    simp only [FileSystemIssueService.remRest, ih, List.map_cons, List.flatten_cons]
    simp [List.append_assoc]

theorem diffLines_nil_right (os : List Str) :
    FileSystemIssueService.diffLines os [] = FileSystemIssueService.remRest os := by
  cases os <;> rfl

theorem filter_map_all_true (f : Str → Str) (p : Str → Bool) (ls : List Str)
    (hp : ∀ l, p (f l) = true) : (ls.map f).filter p = ls.map f := by
  induction ls with
  | nil => rfl
  | cons a as ih => simp [List.filter_cons, hp, ih]

theorem filter_map_all_false (f : Str → Str) (p : Str → Bool) (ls : List Str)
    (hp : ∀ l, p (f l) = false) : (ls.map f).filter p = [] := by
  induction ls with
  | nil => rfl
  | cons a as ih => simp [List.filter_cons, hp, ih]

/-- Line decomposition of the diff of an empty old text against new lines. -/
theorem lines_empty_old (n0 : Str) (rest : List Str) (hn0 : '\n' ∉ n0)
    (hrest : ∀ l ∈ rest, '\n' ∉ l) :
    splitOnNl (FileSystemIssueService.diffLines [[]] (n0 :: rest)) =
      if n0 = [] then [' ', ' '] :: (rest.map (fun l => '+' :: ' ' :: l) ++ [[]])
      else ['-', ' '] :: ('+' :: ' ' :: n0) :: (rest.map (fun l => '+' :: ' ' :: l) ++ [[]]) := by
  have hjoin : splitOnNl (FileSystemIssueService.addRest rest) =
      rest.map (fun l => '+' :: ' ' :: l) ++ [[]] := by
    rw [addRest_eq]
    exact splitOnNl_tagged_join ['+', ' '] (by decide) rest hrest
  by_cases hn : n0 = []
  · subst hn
    rw [if_pos rfl]
    show splitOnNl ([' ', ' '] ++ '\n' :: FileSystemIssueService.addRest rest) = _
    rw [splitOnNl_append_cons _ _ (by decide), hjoin]
  · rw [if_neg hn]
    have hstep : FileSystemIssueService.diffLines [[]] (n0 :: rest) =
        ['-', ' '] ++ '\n' :: (('+' :: ' ' :: n0) ++ '\n' :: FileSystemIssueService.addRest rest) := by
      simp only [FileSystemIssueService.diffLines, if_neg (Ne.symm hn)]
      rfl
    rw [hstep, splitOnNl_append_cons _ _ (by decide)]
    have hpn : '\n' ∉ '+' :: ' ' :: n0 := by
      intro hm
      rcases List.mem_cons.mp hm with h1 | h1
      · exact absurd h1.symm (by decide)
      · rcases List.mem_cons.mp h1 with h2 | h2
        · exact absurd h2.symm (by decide)
        · exact hn0 h2
    rw [splitOnNl_append_cons _ _ hpn, hjoin]

/-- Line decomposition of the diff of old lines against an empty new text. -/
theorem lines_empty_new (n0 : Str) (rest : List Str) (hn0 : '\n' ∉ n0)
    (hrest : ∀ l ∈ rest, '\n' ∉ l) :
    splitOnNl (FileSystemIssueService.diffLines (n0 :: rest) [[]]) =
      if n0 = [] then [' ', ' '] :: (rest.map (fun l => '-' :: ' ' :: l) ++ [[]])
      else ('-' :: ' ' :: n0) :: ['+', ' '] :: (rest.map (fun l => '-' :: ' ' :: l) ++ [[]]) := by
  have hjoin : splitOnNl (FileSystemIssueService.remRest rest) =
      rest.map (fun l => '-' :: ' ' :: l) ++ [[]] := by
    rw [remRest_eq]
    exact splitOnNl_tagged_join ['-', ' '] (by decide) rest hrest
  by_cases hn : n0 = []
  · subst hn
    rw [if_pos rfl]
    have hstep : FileSystemIssueService.diffLines (([] : Str) :: rest) [[]] =
        [' ', ' '] ++ '\n' :: FileSystemIssueService.remRest rest := by
      simp only [FileSystemIssueService.diffLines, if_pos rfl, diffLines_nil_right]
      rfl
    rw [hstep, splitOnNl_append_cons _ _ (by decide), hjoin]
  · rw [if_neg hn]
    have hmn : '\n' ∉ '-' :: ' ' :: n0 := by
      intro hm
      rcases List.mem_cons.mp hm with h1 | h1
      · exact absurd h1.symm (by decide)
      · rcases List.mem_cons.mp h1 with h2 | h2
        · exact absurd h2.symm (by decide)
        · exact hn0 h2
    have hstep : FileSystemIssueService.diffLines (n0 :: rest) [[]] =
        ('-' :: ' ' :: n0) ++ '\n' :: (['+', ' '] ++ '\n' :: FileSystemIssueService.remRest rest) := by
      simp only [FileSystemIssueService.diffLines, if_neg hn, diffLines_nil_right]
      rfl
    rw [hstep, splitOnNl_append_cons _ _ hmn, splitOnNl_append_cons _ _ (by decide), hjoin]

/-- C7 (amended): an empty side of the diff still contributes one empty
line.  With the old text empty, the new text's first line is paired
against that empty line — emitted as one removed empty line plus the first
new line as added when the first new line is non-empty, or as a single
context empty line when it is empty — and every remaining new line is
reported added; symmetrically with the new text empty. -/
theorem claim_C7_amended_empty_sides (s : Str) (n0 : Str) (rest : List Str)
    (h : splitOnNl s = n0 :: rest) :
    ((n0 = [] →
        addedLines (FileSystemIssueService.generateDiff [] s) =
          rest.map (fun l => '+' :: ' ' :: l) ∧
        removedLines (FileSystemIssueService.generateDiff [] s) = []) ∧
     (n0 ≠ [] →
        addedLines (FileSystemIssueService.generateDiff [] s) =
          (n0 :: rest).map (fun l => '+' :: ' ' :: l) ∧
        removedLines (FileSystemIssueService.generateDiff [] s) = [['-', ' ']])) ∧
    ((n0 = [] →
        removedLines (FileSystemIssueService.generateDiff s []) =
          rest.map (fun l => '-' :: ' ' :: l) ∧
        addedLines (FileSystemIssueService.generateDiff s []) = []) ∧
     (n0 ≠ [] →
        removedLines (FileSystemIssueService.generateDiff s []) =
          (n0 :: rest).map (fun l => '-' :: ' ' :: l) ∧
        addedLines (FileSystemIssueService.generateDiff s []) = [['+', ' ']])) := by
  have hn0 : '\n' ∉ n0 := by
    apply nl_not_mem_splitOnNl s
    rw [h]
    exact List.mem_cons_self n0 rest
  have hrest : ∀ l ∈ rest, '\n' ∉ l := by
    intro l hl
    apply nl_not_mem_splitOnNl s
    rw [h]
    exact List.mem_cons_of_mem n0 hl
  have hg1 : FileSystemIssueService.generateDiff [] s =
      FileSystemIssueService.diffLines [[]] (n0 :: rest) := by
    unfold FileSystemIssueService.generateDiff
    rw [h]
    rfl
  have hg2 : FileSystemIssueService.generateDiff s [] =
      FileSystemIssueService.diffLines (n0 :: rest) [[]] := by
    unfold FileSystemIssueService.generateDiff
    rw [h]
    rfl
  have hplus : ∀ l : Str, startsWithStr ['+'] ('+' :: ' ' :: l) = true := fun l => rfl
  have hplusneg : ∀ l : Str, startsWithStr ['-'] ('+' :: ' ' :: l) = false := fun l => rfl
  have hminus : ∀ l : Str, startsWithStr ['-'] ('-' :: ' ' :: l) = true := fun l => rfl
  have hminusneg : ∀ l : Str, startsWithStr ['+'] ('-' :: ' ' :: l) = false := fun l => rfl
  have fm1 : (rest.map (fun l => '+' :: ' ' :: l)).filter
      (fun l => startsWithStr ['+'] l) = rest.map (fun l => '+' :: ' ' :: l) :=
    filter_map_all_true _ _ rest hplus
  have fm2 : (rest.map (fun l => '+' :: ' ' :: l)).filter
      (fun l => startsWithStr ['-'] l) = [] :=
    filter_map_all_false _ _ rest hplusneg
  have fm3 : (rest.map (fun l => '-' :: ' ' :: l)).filter
      (fun l => startsWithStr ['-'] l) = rest.map (fun l => '-' :: ' ' :: l) :=
    filter_map_all_true _ _ rest hminus
  have fm4 : (rest.map (fun l => '-' :: ' ' :: l)).filter
      (fun l => startsWithStr ['+'] l) = [] :=
    filter_map_all_false _ _ rest hminusneg
  have e1 : startsWithStr ['+'] [' ', ' '] = false := rfl
  have e2 : startsWithStr ['-'] [' ', ' '] = false := rfl
  have e3 : startsWithStr ['+'] ([] : Str) = false := rfl
  have e4 : startsWithStr ['-'] ([] : Str) = false := rfl
  have e5 : startsWithStr ['+'] ['-', ' '] = false := rfl
  have e6 : startsWithStr ['-'] ['-', ' '] = true := rfl
  have e7 : startsWithStr ['+'] ['+', ' '] = true := rfl
  have e8 : startsWithStr ['-'] ['+', ' '] = false := rfl
  refine ⟨⟨?_, ?_⟩, ⟨?_, ?_⟩⟩
  · intro hn
    unfold addedLines removedLines
    rw [hg1, lines_empty_old n0 rest hn0 hrest, if_pos hn]
    constructor
    · simp [List.filter_cons, List.filter_append, fm1, e1, e3]
    · simp [List.filter_cons, List.filter_append, fm2, e2, e4]
  · intro hn
    unfold addedLines removedLines
    rw [hg1, lines_empty_old n0 rest hn0 hrest, if_neg hn]
    constructor
    · simp [List.filter_cons, List.filter_append, fm1, e3, e5, hplus n0]
    · simp [List.filter_cons, List.filter_append, fm2, e4, e6, hplusneg n0]
  · intro hn
    unfold addedLines removedLines
    rw [hg2, lines_empty_new n0 rest hn0 hrest, if_pos hn]
    constructor
    · simp [List.filter_cons, List.filter_append, fm3, e2, e4]
    · simp [List.filter_cons, List.filter_append, fm4, e1, e3]
  · intro hn
    unfold addedLines removedLines
    rw [hg2, lines_empty_new n0 rest hn0 hrest, if_neg hn]
    constructor
    · simp [List.filter_cons, List.filter_append, fm3, e4, e8, hminus n0]
    · simp [List.filter_cons, List.filter_append, fm4, e3, e7, hminusneg n0]

/-- Counterexample to C7 as stated: with an empty old text and new text
"hello", the diff contains a removed line (the removed empty line), so it
is not the case that nothing is reported as removed. -/
theorem claim_C7_counterexample :
    FileSystemIssueService.generateDiff [] ("hello".data) = ("- \n+ hello\n".data) ∧
    removedLines (FileSystemIssueService.generateDiff [] ("hello".data)) = [['-', ' ']] ∧
    removedLines (FileSystemIssueService.generateDiff [] ("hello".data)) ≠ [] := by
  refine ⟨by decide, by decide, by decide⟩

/-- Witness for the amended C7 at the concrete new text "hello". -/
theorem claim_C7_witness :
    addedLines (FileSystemIssueService.generateDiff [] ("hello".data)) =
      [("hello".data)].map (fun l => '+' :: ' ' :: l) ∧
    removedLines (FileSystemIssueService.generateDiff [] ("hello".data)) = [['-', ' ']] :=
  (claim_C7_amended_empty_sides ("hello".data) ("hello".data) [] (by decide)).1.2 (by decide)

/-!
Store lemmas: looking up after an in-place rewrite of one issue.
-/

theorem find?_map_update (l : List StoredIssue) (n : Nat) (f : StoredIssue → StoredIssue)
    (hf : ∀ i, (f i).number = i.number) :
    (l.map (fun i => if i.number = n then f i else i)).find? (fun i => i.number == n) =
      (l.find? (fun i => i.number == n)).map f := by
  induction l with
  | nil => rfl
  | cons a l ih =>
    simp only [List.map_cons, List.find?_cons]
    by_cases ha : a.number = n
    · rw [if_pos ha]
      have hb1 : ((f a).number == n) = true := by
        rw [hf a, ha]
        exact beq_self_eq_true n
      have hb2 : (a.number == n) = true := by
        rw [ha]
        exact beq_self_eq_true n
      rw [hb1, hb2]
      rfl
    · rw [if_neg ha]
      have hb : (a.number == n) = false := beq_eq_false_iff_ne.mpr ha
      rw [hb]
      exact ih

theorem find?_map_update_other (l : List StoredIssue) (n m : Nat) (hm : m ≠ n)
    (f : StoredIssue → StoredIssue) (hf : ∀ i, (f i).number = i.number) :
    (l.map (fun i => if i.number = n then f i else i)).find? (fun i => i.number == m) =
      l.find? (fun i => i.number == m) := by
  induction l with
  | nil => rfl
  | cons a l ih =>
    simp only [List.map_cons, List.find?_cons]
    by_cases ha : a.number = n
    · rw [if_pos ha]
      have hbm : (a.number == m) = false := by
        apply beq_eq_false_iff_ne.mpr
        rw [ha]
        exact fun e => hm e.symm
      have hbfm : ((f a).number == m) = false := by
        rw [hf a]
        exact hbm
      rw [hbm, hbfm]
      exact ih
    · rw [if_neg ha]
      cases ham : (a.number == m)
      · exact ih
      · rfl

theorem findIssue_tick (s : Store) (n : Nat) :
    FileSystemIssueService.findIssue (FileSystemIssueService.tick s) n =
      FileSystemIssueService.findIssue s n := rfl

theorem findIssue_setIssue_self (s : Store) (n : Nat) (f : StoredIssue → StoredIssue)
    (hf : ∀ i, (f i).number = i.number) :
    FileSystemIssueService.findIssue (FileSystemIssueService.setIssue s n f) n =
      (FileSystemIssueService.findIssue s n).map f :=
  find?_map_update s.issues n f hf

theorem findIssue_setIssue_other (s : Store) (n m : Nat) (hm : m ≠ n)
    (f : StoredIssue → StoredIssue) (hf : ∀ i, (f i).number = i.number) :
    FileSystemIssueService.findIssue (FileSystemIssueService.setIssue s n f) m =
      FileSystemIssueService.findIssue s m :=
  find?_map_update_other s.issues n m hm f hf

theorem addComment_found (s : Store) (n : Nat) (i : StoredIssue) (text : Str)
    (hi : FileSystemIssueService.findIssue s n = some i) :
    FileSystemIssueService.addComment s n text =
      Except.ok (FileSystemIssueService.tick (FileSystemIssueService.setIssue s n
        (FileSystemIssueService.appendCommentFn text s.clock))) := by
  unfold FileSystemIssueService.addComment
  rw [hi]

theorem appendCommentFn_number (text : Str) (clock : Nat) (j : StoredIssue) :
    (FileSystemIssueService.appendCommentFn text clock j).number = j.number := rfl

theorem setSnapshotFn_number (content path : Str) (clock : Nat) (j : StoredIssue) :
    (FileSystemIssueService.setSnapshotFn content path clock j).number = j.number := rfl

/-- C5: executing an obsolete plan entry only appends the warning comment
carrying the rationale: the issue is neither deleted nor closed, its
title, body, labels and state are untouched, every other issue is
untouched, and the entry counts as one update. -/
theorem claim_C5_obsolete_frame (s : Store) (e : IssueUpdatePlan) (i : StoredIssue)
    (prdContent prdFilePath : Str)
    (ha : e.action = PlanAction.obsolete)
    (hi : FileSystemIssueService.findIssue s e.issueNumber = some i) :
    ∃ s' i',
      SmartPRDProcessor.execUpdatePlan s e prdContent prdFilePath =
        Except.ok (s', { updated := 1, created := 0, unchanged := 0 }) ∧
      FileSystemIssueService.findIssue s' e.issueNumber = some i' ∧
      i'.title = i.title ∧ i'.body = i.body ∧ i'.labels = i.labels ∧ i'.state = i.state ∧
      i'.comments = i.comments ++
        [{ author := ("system".data),
           body := SmartPRDProcessor.obsoleteWarning ++ e.reasoning, createdAt := s.clock }] ∧
      (∀ m, m ≠ e.issueNumber →
        FileSystemIssueService.findIssue s' m = FileSystemIssueService.findIssue s m) ∧
      s'.issues.length = s.issues.length := by
  have hexec : SmartPRDProcessor.execUpdatePlan s e prdContent prdFilePath =
      (FileSystemIssueService.addComment s e.issueNumber
        (SmartPRDProcessor.obsoleteWarning ++ e.reasoning)).map
        (fun s' => (s', { updated := 1, created := 0, unchanged := 0 })) := by
    unfold SmartPRDProcessor.execUpdatePlan
    rw [ha]
  refine ⟨FileSystemIssueService.tick (FileSystemIssueService.setIssue s e.issueNumber
      (FileSystemIssueService.appendCommentFn
        (SmartPRDProcessor.obsoleteWarning ++ e.reasoning) s.clock)),
    FileSystemIssueService.appendCommentFn
      (SmartPRDProcessor.obsoleteWarning ++ e.reasoning) s.clock i,
    ?_, ?_, rfl, rfl, rfl, rfl, rfl, ?_, ?_⟩
  · rw [hexec, addComment_found s e.issueNumber i _ hi]
    rfl
  · rw [findIssue_tick, findIssue_setIssue_self s e.issueNumber _
      (appendCommentFn_number _ _), hi]
    rfl
  · intro m hm
    rw [findIssue_tick, findIssue_setIssue_other s e.issueNumber m hm _
      (appendCommentFn_number _ _)]
  · show (FileSystemIssueService.setIssue s e.issueNumber _).issues.length = s.issues.length
    exact List.length_map _ _

/-- Witness for C5: marking issue 2 obsolete in the two-issue fixture. -/
theorem claim_C5_witness :
    c5Entry.action = PlanAction.obsolete ∧
    FileSystemIssueService.findIssue c2Store 2 = some (sampleIssue 2) ∧
    ∃ s' i',
      SmartPRDProcessor.execUpdatePlan c2Store c5Entry ("doc".data) ("p".data) =
        Except.ok (s', { updated := 1, created := 0, unchanged := 0 }) ∧
      FileSystemIssueService.findIssue s' c5Entry.issueNumber = some i' ∧
      i'.title = (sampleIssue 2).title ∧ i'.body = (sampleIssue 2).body ∧
      i'.labels = (sampleIssue 2).labels ∧ i'.state = (sampleIssue 2).state ∧
      i'.comments = (sampleIssue 2).comments ++
        [{ author := ("system".data),
           body := SmartPRDProcessor.obsoleteWarning ++ c5Entry.reasoning,
           createdAt := c2Store.clock }] ∧
      (∀ m, m ≠ c5Entry.issueNumber →
        FileSystemIssueService.findIssue s' m = FileSystemIssueService.findIssue c2Store m) ∧
      s'.issues.length = c2Store.issues.length := by
  refine ⟨by decide, by decide, ?_⟩
  have h := claim_C5_obsolete_frame c2Store c5Entry (sampleIssue 2) ("doc".data) ("p".data)
    (by decide) (by decide)
  obtain ⟨s', i', h1, h2, h3, h4, h5, h6, h7, h8, h9⟩ := h
  exact ⟨s', i', h1, h2, h3, h4, h5, h6, h7, h8, h9⟩

section C9Section

open FileSystemIssueService

theorem storePRDVersion_found (s : Store) (n : Nat) (j : StoredIssue) (content path : Str)
    (hj : findIssue s n = some j) :
    storePRDVersion s n content path =
      tick (setIssue { s with versions := s.versions ++ [(n, content)] } n
        (setSnapshotFn content path s.clock)) := by
  simp only [FileSystemIssueService.storePRDVersion]
  have hj2 : findIssue { s with versions := s.versions ++ [(n, content)] } n = some j := hj
  rw [hj2]

/-- C9: an update entry whose field payload is absent or empty increments
neither the updated nor the unchanged count, even though its comment is
still posted and a snapshot of the current document is still persisted;
on a plan holding only this entry the returned counts sum to zero, which
is strictly below the number of plan entries plus new-feature records. -/
theorem claim_C9_empty_update_payload (s : Store) (e : IssueUpdatePlan) (i : StoredIssue)
    (prdContent prdFilePath c : Str)
    (ha : e.action = PlanAction.update)
    (hp : e.updates = none ∨ ∃ u, e.updates = some u ∧ u.keysCount = 0)
    (hc : e.comment = some c) (hcne : c.isEmpty = false)
    (hi : FileSystemIssueService.findIssue s e.issueNumber = some i) :
    ∃ s' i',
      SmartPRDProcessor.execUpdatePlan s e prdContent prdFilePath =
        Except.ok (s', { updated := 0, created := 0, unchanged := 0 }) ∧
      FileSystemIssueService.findIssue s' e.issueNumber = some i' ∧
      i'.comments = i.comments ++
        [{ author := ("system".data), body := c, createdAt := s.clock }] ∧
      i'.prdVersion =
        some { content := prdContent, filePath := prdFilePath, storedAt := s.clock + 1 } ∧
      s'.versions = s.versions ++ [(e.issueNumber, prdContent)] ∧
      (∀ (ca : ChangeAssessment) (ps : PlanSummary) (render : AnalyzedFeature → Str → Str),
        (SmartPRDProcessor.executeChanges render s
            { changeAssessment := ca, issueUpdates := [e], newFeatures := [], summary := ps }
            prdContent prdFilePath).1 =
          Except.ok { updated := 0, created := 0, unchanged := 0 } ∧
        0 + 0 + 0 < ([e] : List IssueUpdatePlan).length + ([] : List AnalyzedFeature).length) := by
  have hadd : addComment s e.issueNumber c =
      Except.ok (tick (setIssue s e.issueNumber (appendCommentFn c s.clock))) :=
    addComment_found s e.issueNumber i c hi
  have hfind2 : findIssue (tick (setIssue s e.issueNumber (appendCommentFn c s.clock)))
      e.issueNumber = some (appendCommentFn c s.clock i) := by
    rw [findIssue_tick, findIssue_setIssue_self s e.issueNumber _
      (appendCommentFn_number _ _), hi]
    rfl
  have hstore : storePRDVersion (tick (setIssue s e.issueNumber (appendCommentFn c s.clock)))
      e.issueNumber prdContent prdFilePath =
      tick (setIssue
        { (tick (setIssue s e.issueNumber (appendCommentFn c s.clock))) with
          versions := (tick (setIssue s e.issueNumber (appendCommentFn c s.clock))).versions ++
            [(e.issueNumber, prdContent)] }
        e.issueNumber
        (setSnapshotFn prdContent prdFilePath
          (tick (setIssue s e.issueNumber (appendCommentFn c s.clock))).clock)) :=
    storePRDVersion_found _ e.issueNumber (appendCommentFn c s.clock i) prdContent prdFilePath hfind2
  have hexecEq : SmartPRDProcessor.execUpdatePlan s e prdContent prdFilePath =
      Except.ok (tick (setIssue
        { (tick (setIssue s e.issueNumber (appendCommentFn c s.clock))) with
          versions := (tick (setIssue s e.issueNumber (appendCommentFn c s.clock))).versions ++
            [(e.issueNumber, prdContent)] }
        e.issueNumber
        (setSnapshotFn prdContent prdFilePath
          (tick (setIssue s e.issueNumber (appendCommentFn c s.clock))).clock)),
        { updated := 0, created := 0, unchanged := 0 }) := by
    unfold SmartPRDProcessor.execUpdatePlan
    rw [ha]
    rcases hp with hpn | ⟨u, hpu, hku⟩
    · simp only [hpn, hc, hcne, Bool.false_eq_true, if_false, hadd, hstore]
    · simp only [hpu, hku, hc, hcne, Bool.false_eq_true, if_false, hadd, hstore,
        gt_iff_lt, Nat.lt_irrefl]
  have hfindFinal : findIssue (tick (setIssue
      { (tick (setIssue s e.issueNumber (appendCommentFn c s.clock))) with
        versions := (tick (setIssue s e.issueNumber (appendCommentFn c s.clock))).versions ++
          [(e.issueNumber, prdContent)] }
      e.issueNumber
      (setSnapshotFn prdContent prdFilePath
        (tick (setIssue s e.issueNumber (appendCommentFn c s.clock))).clock)))
      e.issueNumber =
      some (setSnapshotFn prdContent prdFilePath
        (tick (setIssue s e.issueNumber (appendCommentFn c s.clock))).clock
        (appendCommentFn c s.clock i)) := by
    rw [findIssue_tick, findIssue_setIssue_self _ e.issueNumber _ (setSnapshotFn_number _ _ _)]
    have hv : findIssue
        { (tick (setIssue s e.issueNumber (appendCommentFn c s.clock))) with
          versions := (tick (setIssue s e.issueNumber (appendCommentFn c s.clock))).versions ++
            [(e.issueNumber, prdContent)] } e.issueNumber =
        some (appendCommentFn c s.clock i) := hfind2
    rw [hv]
    rfl
  refine ⟨_, _, hexecEq, hfindFinal, rfl, rfl, rfl, ?_⟩
  intro ca ps render
  refine ⟨?_, by simp⟩
  have hplans : SmartPRDProcessor.execUpdatePlans prdContent prdFilePath s [e] =
      (Except.ok { updated := 0 + 0, created := 0 + 0, unchanged := 0 + 0 },
       tick (setIssue
        { (tick (setIssue s e.issueNumber (appendCommentFn c s.clock))) with
          versions := (tick (setIssue s e.issueNumber (appendCommentFn c s.clock))).versions ++
            [(e.issueNumber, prdContent)] }
        e.issueNumber
        (setSnapshotFn prdContent prdFilePath
          (tick (setIssue s e.issueNumber (appendCommentFn c s.clock))).clock))) := by
    unfold SmartPRDProcessor.execUpdatePlans
    rw [hexecEq]
    rfl
  simp only [SmartPRDProcessor.executeChanges]
  rw [hplans]
  rfl

/-- Witness for C9: an update entry for issue 2 with an empty payload and
the comment "clarified" on the two-issue fixture store. -/
theorem claim_C9_witness :
    ∃ s' i',
      SmartPRDProcessor.execUpdatePlan c2Store c9Entry ("doc".data) ("p".data) =
        Except.ok (s', { updated := 0, created := 0, unchanged := 0 }) ∧
      FileSystemIssueService.findIssue s' c9Entry.issueNumber = some i' ∧
      i'.comments = (sampleIssue 2).comments ++
        [{ author := ("system".data), body := ("clarified".data), createdAt := c2Store.clock }] ∧
      i'.prdVersion =
        some { content := ("doc".data), filePath := ("p".data), storedAt := c2Store.clock + 1 } ∧
      s'.versions = c2Store.versions ++ [(c9Entry.issueNumber, ("doc".data))] ∧
      (∀ (ca : ChangeAssessment) (ps : PlanSummary) (render : AnalyzedFeature → Str → Str),
        (SmartPRDProcessor.executeChanges render c2Store
            { changeAssessment := ca, issueUpdates := [c9Entry], newFeatures := [],
              summary := ps } ("doc".data) ("p".data)).1 =
          Except.ok { updated := 0, created := 0, unchanged := 0 } ∧
        0 + 0 + 0 <
          ([c9Entry] : List IssueUpdatePlan).length + ([] : List AnalyzedFeature).length) :=
  claim_C9_empty_update_payload c2Store c9Entry (sampleIssue 2) ("doc".data) ("p".data)
    ("clarified".data) rfl
    (Or.inr ⟨{ title := none, body := none, labels := none }, rfl, rfl⟩)
    rfl (by decide) (by decide)

end C9Section

section C2Section

open SmartPRDProcessor

theorem execUpdatePlans_ok_then_error (prdContent prdFilePath : Str)
    (pre : List IssueUpdatePlan) :
    ∀ (s s1 : Store) (c : ExecCounts) (e : IssueUpdatePlan) (rest : List IssueUpdatePlan)
      (err : StoreErr),
      execUpdatePlans prdContent prdFilePath s pre = (Except.ok c, s1) →
      execUpdatePlan s1 e prdContent prdFilePath = Except.error err →
      execUpdatePlans prdContent prdFilePath s (pre ++ e :: rest) = (Except.error err, s1) := by
  induction pre with
  | nil =>
    intro s s1 c e rest err h1 h2
    have hs : s1 = s := by
      simp only [execUpdatePlans, Prod.mk.injEq] at h1
      exact h1.2.symm
    subst hs
    simp only [List.nil_append, execUpdatePlans, h2]
  | cons p ps ih =>
    intro s s1 c e rest err h1 h2
    rw [List.cons_append]
    cases hp : execUpdatePlan s p prdContent prdFilePath with
    | error err2 =>
      exfalso
      simp only [execUpdatePlans, hp] at h1
      simp at h1
    | ok pr =>
      obtain ⟨s', d⟩ := pr
      simp only [execUpdatePlans, hp] at h1
      cases hrec : execUpdatePlans prdContent prdFilePath s' ps with
      | mk r2 s2 =>
        rw [hrec] at h1
        cases r2 with
        | error e2 => simp at h1
        | ok c2 =>
          simp only [Prod.mk.injEq] at h1
          obtain ⟨-, hs⟩ := h1
          subst hs
          simp only [execUpdatePlans, hp]
          rw [ih s' s2 c2 e rest err hrec h2]

/-- C2 (amended): a failing entry's error is surfaced to the caller, side
effects of the entries before it persist, but the subsequent plan entries
and the planned new features are never processed (the result is
independent of them) and no counts are returned. -/
theorem claim_C2_amended_abort (pre : List IssueUpdatePlan) (e : IssueUpdatePlan)
    (rest : List IssueUpdatePlan) (feats : List AnalyzedFeature) (ca : ChangeAssessment)
    (ps : PlanSummary) (render : AnalyzedFeature → Str → Str) (s s1 : Store) (c : ExecCounts)
    (err : StoreErr) (prdContent prdFilePath : Str)
    (h1 : execUpdatePlans prdContent prdFilePath s pre = (Except.ok c, s1))
    (h2 : execUpdatePlan s1 e prdContent prdFilePath = Except.error err) :
    executeChanges render s
      { changeAssessment := ca, issueUpdates := pre ++ e :: rest, newFeatures := feats,
        summary := ps } prdContent prdFilePath = (Except.error err, s1) := by
  simp only [executeChanges]
  rw [execUpdatePlans_ok_then_error prdContent prdFilePath pre s s1 c e rest err h1 h2]

/-- Counterexample to C2 as stated: with issue 1 absent from the store,
the first (update) entry fails and executeChanges returns the raised
error with the store unchanged — the second (obsolete) entry was never
processed (issue 2 still has no comments) and no counts are returned. -/
theorem claim_C2_counterexample :
    executeChanges (fun _ _ => []) c2Store c2Plan ("doc".data) ("p".data) =
      (Except.error (StoreErr.issueNotFound 1), c2Store) ∧
    (FileSystemIssueService.findIssue c2Store 2).map (fun i => i.comments.length) = some 0 := by
  refine ⟨by decide, by decide⟩

/-- Witness for the amended C2 with the concrete failing plan. -/
theorem claim_C2_witness :
    executeChanges (fun _ _ => []) c2Store
      { changeAssessment := emptyAssessment, issueUpdates := [] ++ c2FailEntry :: [c2NextEntry],
        newFeatures := [], summary := emptyPlanSummary } ("doc".data) ("p".data) =
      (Except.error (StoreErr.issueNotFound 1), c2Store) :=
  claim_C2_amended_abort [] c2FailEntry [c2NextEntry] [] emptyAssessment emptyPlanSummary
    (fun _ _ => []) c2Store c2Store { updated := 0, created := 0, unchanged := 0 }
    (StoreErr.issueNotFound 1) ("doc".data) ("p".data) (by decide) (by decide)

end C2Section

section C4Section

open SmartPRDProcessor FileSystemIssueService

theorem map_labels_map_update (l : List StoredIssue) (n : Nat) (f : StoredIssue → StoredIssue)
    (hf : ∀ i, (f i).labels = i.labels) :
    (l.map (fun i => if i.number = n then f i else i)).map (fun i => i.labels) =
      l.map (fun i => i.labels) := by
  induction l with
  | nil => rfl
  | cons a l ih =>
    simp only [List.map_cons, ih]
    by_cases ha : a.number = n
    · rw [if_pos ha, hf a]
    · rw [if_neg ha]

theorem storePRDVersion_labels (s : Store) (n : Nat) (content path : Str) :
    (storePRDVersion s n content path).issues.map (fun i => i.labels) =
      s.issues.map (fun i => i.labels) := by
  simp only [FileSystemIssueService.storePRDVersion]
  cases hfi : findIssue { s with versions := s.versions ++ [(n, content)] } n with
  | none => rfl
  | some j => exact map_labels_map_update s.issues n _ (fun i => rfl)

theorem createIssue_labels (s : Store) (d : IssueData) :
    (createIssue s d).1.issues.map (fun i => i.labels) =
      s.issues.map (fun i => i.labels) ++ [d.labels] := by
  simp [FileSystemIssueService.createIssue]

theorem createNewIssues_labels (render : AnalyzedFeature → Str → Str) (prdPath : Str)
    (content : Option Str) (feats : List AnalyzedFeature) :
    ∀ s : Store,
      (createNewIssues render s feats prdPath content).issues.map (fun i => i.labels) =
        s.issues.map (fun i => i.labels) ++ feats.map featureLabels := by
  induction feats with
  | nil =>
    intro s
    simp [SmartPRDProcessor.createNewIssues]
  | cons f fs ih =>
    intro s
    cases content with
    | none =>
      have hstep : createNewIssues render s (f :: fs) prdPath none =
          createNewIssues render (createIssue s (featureIssueData render f prdPath)).1
            fs prdPath none := rfl
      rw [hstep, ih, createIssue_labels]
      simp [List.append_assoc]
      rfl
    | some cc =>
      have hstep : createNewIssues render s (f :: fs) prdPath (some cc) =
          createNewIssues render
            (if cc.isEmpty then (createIssue s (featureIssueData render f prdPath)).1
             else storePRDVersion (createIssue s (featureIssueData render f prdPath)).1
               (createIssue s (featureIssueData render f prdPath)).2 cc prdPath)
            fs prdPath (some cc) := rfl
      by_cases hcc : cc.isEmpty = true
      · rw [hstep, if_pos hcc, ih, createIssue_labels]
        simp [List.append_assoc]
        rfl
      · rw [hstep, if_neg hcc, ih, storePRDVersion_labels, createIssue_labels]
        simp [List.append_assoc]
        rfl

/-- C4 (amended): with no open prd-generated issues and force-create off,
processPRD takes the fresh-create path and creates exactly one work item
per extracted feature, each carrying the deterministic label set headed by
"prd-generated" together with the type and priority labels and the
feature's tags. -/
theorem claim_C4_amended_fresh_create (extract : ExtractOracle) (planOracle : PlanOracle)
    (render : AnalyzedFeature → Str → Str) (hash : Str → Str) (s : Store)
    (prdContent prdFilePath : Str)
    (h : getIssues s prdGeneratedFilter = []) :
    (processPRD extract planOracle render hash s prdContent prdFilePath false).1 =
      Except.ok ProcessOutcome.freshCreate ∧
    (processPRD extract planOracle render hash s prdContent prdFilePath false).2.issues.map
        (fun i => i.labels) =
      s.issues.map (fun i => i.labels) ++ (extract prdContent).map featureLabels := by
  have hred : processPRD extract planOracle render hash s prdContent prdFilePath false =
      (Except.ok ProcessOutcome.freshCreate,
       createAllNewIssues extract render s prdContent prdFilePath) := by
    simp [SmartPRDProcessor.processPRD, h]
  rw [hred]
  exact ⟨rfl, createNewIssues_labels render prdFilePath (some prdContent) (extract prdContent) s⟩

/-- Counterexample to C4 as stated: on an empty store with a single
extracted feature, the created item does not carry the label "generated";
the document-generated marker label is "prd-generated". -/
theorem claim_C4_counterexample :
    ((processPRD (fun _ => [c4Feature]) constPlanOracle (fun _ _ => []) (fun _ => [])
        emptyStore ("doc".data) ("p".data) false).2.issues.map
          (fun i => i.labels.contains ("generated".data))) = [false] ∧
    ((processPRD (fun _ => [c4Feature]) constPlanOracle (fun _ _ => []) (fun _ => [])
        emptyStore ("doc".data) ("p".data) false).2.issues.map
          (fun i => i.labels.contains ("prd-generated".data))) = [true] := by
  refine ⟨by decide, by decide⟩

/-- Witness for the amended C4 on the empty store with one feature. -/
theorem claim_C4_witness :
    (processPRD (fun _ => [c4Feature]) constPlanOracle (fun _ _ => []) (fun _ => [])
        emptyStore ("doc".data) ("p".data) false).1 = Except.ok ProcessOutcome.freshCreate ∧
    (processPRD (fun _ => [c4Feature]) constPlanOracle (fun _ _ => []) (fun _ => [])
        emptyStore ("doc".data) ("p".data) false).2.issues.map (fun i => i.labels) =
      emptyStore.issues.map (fun i => i.labels) ++
        [c4Feature].map featureLabels :=
  claim_C4_amended_fresh_create (fun _ => [c4Feature]) constPlanOracle (fun _ _ => [])
    (fun _ => []) emptyStore ("doc".data) ("p".data) (by decide)

end C4Section


/-- C8: an unknown item id yields an absent lookup result but raising
mutations, on both conforming backends: the file-system store returns
none from getIssue and raises from updateIssue and addComment, and the
remote-tracker backend translates the endpoint's 404 into an absent
getIssue result while updateIssue and addComment propagate the 404
error. -/
theorem claim_C8_not_found (s : Store) (r : RemoteRepo) (n : Nat)
    (hs : FileSystemIssueService.findIssue s n = none)
    (hr : GitHubIssueService.apiFindIssue r n = none) :
    FileSystemIssueService.getIssue s n = none ∧
    (∀ u, FileSystemIssueService.updateIssue s n u =
      Except.error (StoreErr.issueNotFound n)) ∧
    (∀ c, FileSystemIssueService.addComment s n c =
      Except.error (StoreErr.issueNotFound n)) ∧
    GitHubIssueService.getIssue r n = Except.ok none ∧
    (∀ u, GitHubIssueService.updateIssue r n u = Except.error { status := 404 }) ∧
    (∀ c, GitHubIssueService.addComment r n c = Except.error { status := 404 }) := by
  have hg : GitHubIssueService.apiGetIssue r n = Except.error { status := 404 } := by
    unfold GitHubIssueService.apiGetIssue
    rw [hr]
  refine ⟨?_, ?_, ?_, ?_, ?_, ?_⟩
  · unfold FileSystemIssueService.getIssue
    rw [hs]
  · intro u
    unfold FileSystemIssueService.updateIssue
    rw [hs]
  · intro c
    unfold FileSystemIssueService.addComment
    rw [hs]
  · unfold GitHubIssueService.getIssue
    rw [hg]
    rfl
  · intro u
    unfold GitHubIssueService.updateIssue GitHubIssueService.apiUpdateIssue
    rw [hr]
  · intro c
    unfold GitHubIssueService.addComment GitHubIssueService.apiCreateComment
    rw [hr]

/-- Witness for C8 at id 1 against the empty file store and empty remote
repository. -/
theorem claim_C8_witness :
    FileSystemIssueService.getIssue emptyStore 1 = none ∧
    FileSystemIssueService.updateIssue emptyStore 1
      { title := none, body := none, state := none, labels := none } =
      Except.error (StoreErr.issueNotFound 1) ∧
    FileSystemIssueService.addComment emptyStore 1 [] =
      Except.error (StoreErr.issueNotFound 1) ∧
    GitHubIssueService.getIssue emptyRepo 1 = Except.ok none ∧
    GitHubIssueService.addComment emptyRepo 1 [] = Except.error { status := 404 } := by
  have h := claim_C8_not_found emptyStore emptyRepo 1 (by decide) (by decide)
  exact ⟨h.1, h.2.1 _, h.2.2.1 _, h.2.2.2.1, h.2.2.2.2.2 _⟩

